import Mathlib

/-!
Verification development for `st2mqtt`: a service that measures internet
connection quality with a headless browser driven against fast.com
(`src/fast.ts`) and republishes the results as Home-Assistant MQTT sensors
(`src/server.ts`).

The definitions below are shallow embeddings of the corresponding TypeScript
functions.  JavaScript numbers are modelled as `Int` (the claims only involve
ordering, subtraction and `max`), `null`/`undefined`-able fields as `Option`,
and the asynchronous sampling loop of `init` as a pure function over the list
of per-tick snapshot values extracted from the page.
-/

namespace St2Mqtt

/-- Embeds the `FastResult` interface of `src/fast.ts`: one sampled snapshot
of the in-page speed-test state.  `isDeepStrictEqual` on these records is
structural equality, which `DecidableEq` provides. -/
structure FastResult where
  downloadSpeed : Option Int
  uploadSpeed : Option Int
  downloadUnit : Option String
  downloaded : Option Int
  uploadUnit : Option String
  uploaded : Option Int
  latency : Option Int
  bufferBloat : Option Int
  userLocation : Option String
  userIp : Option String
  isDone : Bool
deriving DecidableEq, Repr

/-- Embeds `FastOptions` of `src/fast.ts`; `measureUpload?: boolean` is an
optional boolean field, so `Option Bool`. -/
structure FastOptions where
  measureUpload : Option Bool
deriving DecidableEq, Repr

/-- The emit condition of the sampling loop in `init` (`src/fast.ts`):
`result.downloadSpeed !== null && result.downloadSpeed > 0 &&
!isDeepStrictEqual(result, previousResult)`.  When `previousResult` is still
`null` (`none`), `isDeepStrictEqual(result, null)` is `false`, which matches
`some result ≠ none`. -/
def shouldEmit (result : FastResult) (previousResult : Option FastResult) : Bool :=
  match result.downloadSpeed with
  | none => false
  | some d => decide (0 < d) && decide (some result ≠ previousResult)

/-- The termination condition of the sampling loop in `init` (`src/fast.ts`):
`result.isDone || (options.measureUpload !== true && result.uploadSpeed !== null)`. -/
def shouldTerminate (options : FastOptions) (result : FastResult) : Bool :=
  result.isDone || (decide (options.measureUpload ≠ some true) && decide (result.uploadSpeed ≠ none))

/-- Embeds the `while (true)` loop of `init` (`src/fast.ts`) as a pure
function over the list of per-tick snapshots produced by `page.evaluate`.
It returns the observed trace — each observed snapshot paired with the
boolean decision of whether `observer.next` fired for it — together with a
boolean telling whether the loop reached `observer.complete()` (`true`) or
ran out of supplied ticks while still polling (`false`).  As in the source,
the emit decision for a tick is taken before the termination check, and
`previousResult` is updated to the current snapshot whenever the loop
continues. -/
def sampleTrace (options : FastOptions) :
    Option FastResult → List FastResult → List (FastResult × Bool) × Bool
  | _, [] => ([], false)
  | previousResult, result :: rest =>
    let emitted := shouldEmit result previousResult
    if shouldTerminate options result then
      ([(result, emitted)], true)
    else
      let next := sampleTrace options (some result) rest
      ((result, emitted) :: next.1, next.2)

/-- The readings actually delivered to `observer.next`, starting from the
initial `previousResult = null`, in order. -/
def emittedFrom (options : FastOptions) (previousResult : Option FastResult)
    (ticks : List FastResult) : List FastResult :=
  ((sampleTrace options previousResult ticks).1.filter (fun p => p.2)).map Prod.fst

/-- The readings emitted by one full run of the sampler on the given tick
sequence (the loop of `init` starts with `previousResult = null`). -/
def emittedReadings (options : FastOptions) (ticks : List FastResult) : List FastResult :=
  emittedFrom options none ticks

/-- An all-null snapshot, used to build concrete test ticks. -/
def blankReading : FastResult :=
  { downloadSpeed := none, uploadSpeed := none, downloadUnit := none, downloaded := none,
    uploadUnit := none, uploaded := none, latency := none, bufferBloat := none,
    userLocation := none, userIp := none, isDone := false }

/-- Scenario 1, tick 1: `{downloadSpeed: 0}`. -/
def scenarioTick1 : FastResult := { blankReading with downloadSpeed := some 0 }

/-- Scenario 1, ticks 2 and 3: `{downloadSpeed: 50, ...}` (tick 3 is a
structural duplicate of tick 2). -/
def scenarioTick2 : FastResult :=
  { blankReading with downloadSpeed := some 50, downloaded := some 100, latency := some 20 }

/-- Scenario 1, tick 4: `{downloadSpeed: 55, isDone: true}`. -/
def scenarioTick4 : FastResult :=
  { blankReading with
      downloadSpeed := some 55
      downloaded := some 120
      latency := some 20
      isDone := true }

/-- The tick sequence of Scenario 1. -/
def scenarioTicks : List FastResult :=
  [scenarioTick1, scenarioTick2, scenarioTick2, scenarioTick4]

/-- The comparison baseline the loop uses at tick `n`: the immediately
preceding observed tick, or the incoming `previousResult` for the first tick. -/
def baselineAt (previousResult : Option FastResult) (ticks : List FastResult) :
    Nat → Option FastResult
  | 0 => previousResult
  | Nat.succ m => ticks[m]?

theorem shouldEmit_eq_true_iff (r : FastResult) (previousResult : Option FastResult) :
    shouldEmit r previousResult = true ↔
      ((∃ d, r.downloadSpeed = some d ∧ 0 < d) ∧ some r ≠ previousResult) := by
  unfold shouldEmit
  cases hd : r.downloadSpeed with
  | none => simp [hd]
  | some d => simp [hd]

theorem shouldTerminate_eq_true_iff (options : FastOptions) (r : FastResult) :
    shouldTerminate options r = true ↔
      (r.isDone = true ∨ (options.measureUpload ≠ some true ∧ r.uploadSpeed ≠ none)) := by
  unfold shouldTerminate
  simp [Bool.or_eq_true, Bool.and_eq_true, decide_eq_true_iff]

theorem sampleTrace_getElem? (options : FastOptions) :
    ∀ (ticks : List FastResult) (previousResult : Option FastResult) (n : Nat)
      (r : FastResult) (b : Bool),
      (sampleTrace options previousResult ticks).1[n]? = some (r, b) →
      ticks[n]? = some r ∧ b = shouldEmit r (baselineAt previousResult ticks n)
  | [], previousResult, n, r, b => by
    intro h
    simp [sampleTrace] at h
  | t :: rest, previousResult, n, r, b => by
    intro h
    by_cases hterm : shouldTerminate options t
    · rw [sampleTrace, if_pos hterm] at h
      cases n with
      | zero =>
        simp only [List.getElem?_cons_zero, Option.some.injEq, Prod.mk.injEq] at h
        obtain ⟨hr, hb⟩ := h
        subst hr
        subst hb
        exact ⟨by simp, rfl⟩
      | succ m =>
        simp at h
    · rw [sampleTrace, if_neg hterm] at h
      cases n with
      | zero =>
        simp only [List.getElem?_cons_zero, Option.some.injEq, Prod.mk.injEq] at h
        obtain ⟨hr, hb⟩ := h
        subst hr
        subst hb
        exact ⟨by simp, rfl⟩
      | succ m =>
        simp only [List.getElem?_cons_succ] at h
        have ih := sampleTrace_getElem? options rest (some t) m r b h
        cases m with
        | zero =>
          exact ⟨by simpa using ih.1, by simpa [baselineAt] using ih.2⟩
        | succ k =>
          exact ⟨by simpa using ih.1, by simpa [baselineAt] using ih.2⟩

theorem sampleTrace_terminated_iff (options : FastOptions) :
    ∀ (ticks : List FastResult) (previousResult : Option FastResult),
      ((sampleTrace options previousResult ticks).2 = true ↔
        ∃ r ∈ ticks, shouldTerminate options r = true)
  | [], previousResult => by simp [sampleTrace]
  | t :: rest, previousResult => by
    by_cases hterm : shouldTerminate options t
    · simp [sampleTrace, hterm]
    · have ih := sampleTrace_terminated_iff options rest (some t)
      simp only [sampleTrace, if_neg hterm]
      rw [ih]
      constructor
      · rintro ⟨r, hr, h⟩
        exact ⟨r, List.mem_cons_of_mem _ hr, h⟩
      · rintro ⟨r, hr, h⟩
        rcases List.mem_cons.mp hr with h1 | h1
        · subst h1
          exact absurd h hterm
        · exact ⟨r, h1, h⟩

theorem sampleTrace_ne_nil_of_terminated (options : FastOptions) :
    ∀ (ticks : List FastResult) (previousResult : Option FastResult),
      (sampleTrace options previousResult ticks).2 = true →
      (sampleTrace options previousResult ticks).1 ≠ []
  | [], previousResult => by simp [sampleTrace]
  | t :: rest, previousResult => by
    by_cases hterm : shouldTerminate options t
    · simp [sampleTrace, hterm]
    · intro hdone
      rw [sampleTrace, if_neg hterm] at hdone ⊢
      simp

theorem getLast?_cons_of_ne_nil {α : Type} (a : α) (l : List α) (h : l ≠ []) :
    (a :: l).getLast? = l.getLast? := by
  cases l with
  | nil => exact absurd rfl h
  | cons b t => exact List.getLast?_cons_cons ..

theorem sampleTrace_last_emit (options : FastOptions) :
    ∀ (ticks : List FastResult) (previousResult : Option FastResult) (r : FastResult),
      (sampleTrace options previousResult ticks).2 = true →
      (sampleTrace options previousResult ticks).1.getLast? = some (r, true) →
      shouldTerminate options r = true ∧
        (emittedFrom options previousResult ticks).getLast? = some r
  | [], previousResult, r => by simp [sampleTrace]
  | t :: rest, previousResult, r => by
    intro hdone hlast
    by_cases hterm : shouldTerminate options t = true
    · simp only [sampleTrace, hterm, if_true] at hlast
      simp only [List.getLast?_singleton, Option.some.injEq, Prod.mk.injEq] at hlast
      obtain ⟨hr, hb⟩ := hlast
      subst hr
      refine ⟨hterm, ?_⟩
      unfold emittedFrom
      simp [sampleTrace, hterm, hb]
    · have hstep : sampleTrace options previousResult (t :: rest) =
          ((t, shouldEmit t previousResult) :: (sampleTrace options (some t) rest).1,
            (sampleTrace options (some t) rest).2) := by
        simp [sampleTrace, hterm]
      rw [hstep] at hdone hlast
      simp only at hdone hlast
      have hne := sampleTrace_ne_nil_of_terminated options rest (some t) hdone
      rw [getLast?_cons_of_ne_nil _ _ hne] at hlast
      have ih := sampleTrace_last_emit options rest (some t) r hdone hlast
      refine ⟨ih.1, ?_⟩
      have hml : (emittedFrom options (some t) rest).getLast? = some r := ih.2
      have hne2 : emittedFrom options (some t) rest ≠ [] := by
        intro hnil
        rw [hnil] at hml
        simp at hml
      unfold emittedFrom at hml hne2 ⊢
      rw [hstep]
      simp only [List.filter_cons]
      by_cases he : shouldEmit t previousResult = true
      · simp only [he, if_true, List.map_cons]
        rw [getLast?_cons_of_ne_nil _ _ hne2]
        exact hml
      · simp only [he, if_false]
        exact hml

/-- **C1.** Sampler emit/dedup law: the snapshot observed at tick `n` is
delivered to `observer.next` iff its `downloadSpeed` is present and strictly
greater than 0 and it is not structurally equal to the previously observed
snapshot (the baseline is the most recent observation whether or not it was
emitted; the first tick is compared against no previous value, so any
qualifying first snapshot emits); moreover on the Scenario-1 tick sequence
`[{downloadSpeed:0}, {downloadSpeed:50,...}, dup, {downloadSpeed:55, isDone:true}]`
exactly the readings of ticks 2 and 4 are emitted. -/
theorem sampler_emit_dedup_law :
    (∀ (options : FastOptions) (ticks : List FastResult) (n : Nat) (r : FastResult) (b : Bool),
      (sampleTrace options none ticks).1[n]? = some (r, b) →
      (b = true ↔
        ((∃ d, r.downloadSpeed = some d ∧ 0 < d) ∧ some r ≠ baselineAt none ticks n))) ∧
    emittedReadings ⟨some true⟩ scenarioTicks = [scenarioTick2, scenarioTick4] := by
  constructor
  · intro options ticks n r b h
    have hb := (sampleTrace_getElem? options ticks none n r b h).2
    rw [hb]
    exact shouldEmit_eq_true_iff r (baselineAt none ticks n)
  · decide

/-- Witness for C1: the general law instantiated at tick 2 of Scenario 1
(which was emitted). -/
theorem sampler_emit_dedup_law_witness :
    (true = true ↔
      ((∃ d, scenarioTick2.downloadSpeed = some d ∧ 0 < d) ∧
        some scenarioTick2 ≠ baselineAt none scenarioTicks 1)) :=
  sampler_emit_dedup_law.1 ⟨some true⟩ scenarioTicks 1 scenarioTick2 true (by decide)

/-- **C2.** Sampler termination law: the sequence completes exactly when some
sampled snapshot has `isDone = true` or (upload measurement was not requested
and `uploadSpeed` is present); `isDone = true` always terminates regardless of
the other fields; and a snapshot that passes the emit filter on the same tick
that terminates is still emitted (it is the last emitted reading) before the
sequence completes. -/
theorem sampler_termination_law :
    (∀ (options : FastOptions) (previousResult : Option FastResult) (ticks : List FastResult),
      ((sampleTrace options previousResult ticks).2 = true ↔
        ∃ r ∈ ticks, r.isDone = true ∨
          (options.measureUpload ≠ some true ∧ r.uploadSpeed ≠ none))) ∧
    (∀ (options : FastOptions) (previousResult : Option FastResult) (ticks : List FastResult)
      (r : FastResult), r ∈ ticks → r.isDone = true →
      (sampleTrace options previousResult ticks).2 = true) ∧
    (∀ (options : FastOptions) (previousResult : Option FastResult) (ticks : List FastResult)
      (r : FastResult),
      (sampleTrace options previousResult ticks).2 = true →
      (sampleTrace options previousResult ticks).1.getLast? = some (r, true) →
      (emittedFrom options previousResult ticks).getLast? = some r) := by
  refine ⟨?_, ?_, ?_⟩
  · intro options previousResult ticks
    rw [sampleTrace_terminated_iff]
    constructor
    · rintro ⟨r, hr, h⟩
      exact ⟨r, hr, (shouldTerminate_eq_true_iff options r).mp h⟩
    · rintro ⟨r, hr, h⟩
      exact ⟨r, hr, (shouldTerminate_eq_true_iff options r).mpr h⟩
  · intro options previousResult ticks r hmem hdone
    rw [sampleTrace_terminated_iff]
    exact ⟨r, hmem, (shouldTerminate_eq_true_iff options r).mpr (Or.inl hdone)⟩
  · intro options previousResult ticks r hdone hlast
    exact (sampleTrace_last_emit options ticks previousResult r hdone hlast).2

/-- Witness for C2: on Scenario 1, tick 4 both emits and terminates; it is
the last reading emitted before the sequence completes. -/
theorem sampler_termination_law_witness :
    (emittedFrom ⟨some true⟩ none scenarioTicks).getLast? = some scenarioTick4 :=
  sampler_termination_law.2.2 ⟨some true⟩ none scenarioTicks scenarioTick4 (by decide) (by decide)

/-- Embeds the `SensorType` union of `src/server.ts`: the closed set of four
sensor variants. -/
inductive SensorType where
  | download_speed
  | upload_speed
  | latency
  | buffer_bloat
deriving DecidableEq, Repr

/-- The string value of each `SensorType` union member, as it appears in
topic paths, unique ids and value templates. -/
def sensorTypeKey : SensorType → String
  | .download_speed => "download_speed"
  | .upload_speed => "upload_speed"
  | .latency => "latency"
  | .buffer_bloat => "buffer_bloat"

/-- Embeds `SENSOR_TYPE_TO_NAME` of `src/server.ts`. -/
def sensorTypeToName : SensorType → String
  | .download_speed => "Download Speed"
  | .upload_speed => "Upload Speed"
  | .latency => "Latency"
  | .buffer_bloat => "Buffer Bloat"

/-- Embeds `deviceClassForSensorType` of `src/server.ts`. -/
def deviceClassForSensorType : SensorType → Option String
  | .download_speed => some "data_rate"
  | .upload_speed => some "data_rate"
  | .latency => none
  | .buffer_bloat => none

/-- Embeds `unitForSensorType` of `src/server.ts`. -/
def unitForSensorType : SensorType → String
  | .download_speed => "Mbps"
  | .upload_speed => "Mbps"
  | .latency => "ms"
  | .buffer_bloat => "ms"

/-- Embeds `iconForSensorType` of `src/server.ts`. -/
def iconForSensorType : SensorType → String
  | .download_speed => "mdi:download"
  | .upload_speed => "mdi:upload"
  | .latency => "mdi:timer"
  | .buffer_bloat => "mdi:timer-sand"

/-- Embeds `getDeviceIdentifier` of `src/server.ts`. -/
def getDeviceIdentifier (identifier : String) : String :=
  "st_" ++ identifier

/-- Embeds `getStateTopic` of `src/server.ts`. -/
def getStateTopic (identifier : String) : String :=
  "homeassistant/sensor/" ++ getDeviceIdentifier identifier ++ "/state"

/-- Embeds the `SpeedTestResult` interface of `src/server.ts`: all four
fields are required numbers. -/
structure SpeedTestResult where
  downloadSpeed : Int
  uploadSpeed : Int
  latency : Int
  bufferBloat : Int
deriving DecidableEq, Repr

/-- A JSON string literal; the strings this program serializes contain no
characters needing escapes. -/
def jsonString (s : String) : String :=
  "\"" ++ s ++ "\""

/-- `JSON.stringify` of a nullable string value. -/
def jsonNullableString : Option String → String
  | none => "null"
  | some s => jsonString s

/-- The `JSON.stringify` output of the state payload built in
`publishSpeedTestResult` (`src/server.ts`), with keys in source order. -/
def statePayload (result : SpeedTestResult) : String :=
  "\x7b\"download_speed\":" ++ toString result.downloadSpeed ++
    ",\"upload_speed\":" ++ toString result.uploadSpeed ++
    ",\"latency\":" ++ toString result.latency ++
    ",\"buffer_bloat\":" ++ toString result.bufferBloat ++ "\x7d"

/-- Embeds `publishSpeedTestResult` of `src/server.ts` as the list of
`(topic, payload)` messages it publishes paired with the console lines it
writes: below the 5 Mbps threshold it logs a skip and publishes nothing;
otherwise it publishes the JSON state payload to the state topic. -/
def publishSpeedTestResult (identifier : String) (result : SpeedTestResult) :
    List (String × String) × List String :=
  if result.downloadSpeed < 5 then
    ([], ["[st2mqtt] Download speed is less than 5 Mbps, skipping publishing"])
  else
    ([(getStateTopic identifier, statePayload result)],
      ["[st2mqtt] Publishing speed test result to topic: " ++ getStateTopic identifier])

/-- How the observable consumed by `runSpeedTest` (`src/server.ts`) ends:
`observer.complete()` or `observer.error(e)` with an error message. -/
inductive StreamEnding where
  | completed
  | errored (message : String)
deriving DecidableEq, Repr

/-- The settlement of the promise returned by `runSpeedTest`
(`src/server.ts`). -/
inductive SpeedTestOutcome where
  | resolved (result : SpeedTestResult)
  | rejected (message : String)
deriving DecidableEq, Repr

/-- Embeds `runSpeedTest` of `src/server.ts` as a function of the readings
delivered by the observable (in order) and how the stream ended.  The `next`
handler overwrites `result` each time, so on completion only the last
delivered reading matters; the promise resolves only when that reading exists
and all four of its required fields are non-null, applying
`Math.max(bufferBloat - latency, 0)`; otherwise it rejects with
`new Error("No result")`.  A stream error rejects with that error. -/
def runSpeedTest (readings : List FastResult) (ending : StreamEnding) : SpeedTestOutcome :=
  match ending with
  | .errored message => .rejected message
  | .completed =>
    match readings.getLast? with
    | none => .rejected "No result"
    | some result =>
      match result.downloadSpeed, result.uploadSpeed, result.latency, result.bufferBloat with
      | some d, some u, some l, some b =>
        .resolved { downloadSpeed := d, uploadSpeed := u, latency := l, bufferBloat := max (b - l) 0 }
      | _, _, _, _ => .rejected "No result"

/-- Embeds the publish behaviour of `runAndReport` (`src/server.ts`): the
state messages actually sent for one run.  When `runSpeedTest` rejects, the
`await` re-throws before `publishSpeedTestResult` is reached, so nothing is
published. -/
def runAndReport (identifier : String) (readings : List FastResult) (ending : StreamEnding) :
    List (String × String) :=
  match runSpeedTest readings ending with
  | .resolved result => (publishSpeedTestResult identifier result).1
  | .rejected _ => []

/-- The discovery topic built in `publishDiscoverMessage` (`src/server.ts`). -/
def discoveryTopic (identifier : String) (sensorType : SensorType) : String :=
  "homeassistant/sensor/" ++ getDeviceIdentifier identifier ++ "/" ++
    sensorTypeKey sensorType ++ "/config"

/-- The `JSON.stringify` output of the discovery payload built in
`publishDiscoverMessage` (`src/server.ts`), with keys in source order. -/
def discoveryPayload (identifier : String) (sensorType : SensorType) : String :=
  "\x7b\"name\":" ++ jsonString (sensorTypeToName sensorType) ++
    ",\"state_topic\":" ++ jsonString (getStateTopic identifier) ++
    ",\"device_class\":" ++ jsonNullableString (deviceClassForSensorType sensorType) ++
    ",\"unique_id\":" ++
      jsonString (getDeviceIdentifier identifier ++ "_" ++ sensorTypeKey sensorType) ++
    ",\"value_template\":" ++
      jsonString ("\x7b\x7b value_json." ++ sensorTypeKey sensorType ++ " \x7d\x7d") ++
    ",\"icon\":" ++ jsonString (iconForSensorType sensorType) ++
    ",\"unit_of_measurement\":" ++ jsonString (unitForSensorType sensorType) ++
    ",\"device\":\x7b\"name\":\"Speedtest Sensor\",\"identifiers\":[" ++
      jsonString (getDeviceIdentifier identifier) ++
    "],\"manufacturer\":\"Vincent Riemer\",\"model\":\"Speedtest Docker Container\"\x7d\x7d"

/-- Embeds `publishDiscoverMessage` of `src/server.ts` as the single
`(topic, payload)` message it publishes. -/
def publishDiscoverMessage (identifier : String) (sensorType : SensorType) : String × String :=
  (discoveryTopic identifier sensorType, discoveryPayload identifier sensorType)

/-- Embeds `publishDiscoveryMessages` of `src/server.ts`: the discovery burst
of four messages, in source order. -/
def publishDiscoveryMessages (identifier : String) : List (String × String) :=
  [publishDiscoverMessage identifier .download_speed,
    publishDiscoverMessage identifier .upload_speed,
    publishDiscoverMessage identifier .latency,
    publishDiscoverMessage identifier .buffer_bloat]

/-- Embeds the handler returned by `createMessageHandler` (`src/server.ts`)
as the `(published messages, console lines)` it produces for one incoming
message.  The `case "homeassistant/status"` block of the `switch` has no
`break`, so after logging and publishing the discovery burst control falls
through into `default`, which logs the unknown-topic warning; every other
topic only reaches `default`. -/
def messageHandler (identifier : String) (topic : String) :
    List (String × String) × List String :=
  if topic = "homeassistant/status" then
    (publishDiscoveryMessages identifier,
      ["[st2mqtt] Received \"homeassistant/status\" message",
        "Received message on unknown topic: " ++ topic])
  else
    ([], ["Received message on unknown topic: " ++ topic])

/-- Scenario 3: a terminal reading missing `latency` (all other required
fields present). -/
def incompleteReading : FastResult :=
  { blankReading with
      downloadSpeed := some 42
      uploadSpeed := some 10
      bufferBloat := some 30
      isDone := true }

/-- A terminal reading with latency 20 and raw bufferBloat 15 (clamped case). -/
def clampedReading : FastResult :=
  { blankReading with
      downloadSpeed := some 100
      uploadSpeed := some 10
      latency := some 20
      bufferBloat := some 15
      isDone := true }

/-- A terminal reading with latency 20 and raw bufferBloat 35. -/
def excessReading : FastResult :=
  { blankReading with
      downloadSpeed := some 100
      uploadSpeed := some 10
      latency := some 20
      bufferBloat := some 35
      isDone := true }

theorem runSpeedTest_resolved_iff (readings : List FastResult) :
    (∃ result, runSpeedTest readings .completed = .resolved result) ↔
      (∃ r d u l b, readings.getLast? = some r ∧ r.downloadSpeed = some d ∧
        r.uploadSpeed = some u ∧ r.latency = some l ∧ r.bufferBloat = some b) := by
  simp only [runSpeedTest]
  cases hl : readings.getLast? with
  | none => simp
  | some r =>
    cases hd : r.downloadSpeed with
    | none => simp [hd]
    | some d =>
      cases hu : r.uploadSpeed with
      | none => simp [hd, hu]
      | some u =>
        cases hlat : r.latency with
        | none => simp [hd, hu, hlat]
        | some l =>
          cases hb : r.bufferBloat with
          | none => simp [hd, hu, hlat, hb]
          | some b => simp [hd, hu, hlat, hb]

theorem runSpeedTest_resolved_eq (readings : List FastResult) (r : FastResult)
    (d u l b : Int) (hl : readings.getLast? = some r) (hd : r.downloadSpeed = some d)
    (hu : r.uploadSpeed = some u) (hlat : r.latency = some l) (hb : r.bufferBloat = some b) :
    runSpeedTest readings .completed = .resolved ⟨d, u, l, max (b - l) 0⟩ := by
  simp only [runSpeedTest]
  rw [hl]
  simp [hd, hu, hlat, hb]

theorem runSpeedTest_rejected_of_incomplete (readings : List FastResult)
    (h : ¬ ∃ r d u l b, readings.getLast? = some r ∧ r.downloadSpeed = some d ∧
      r.uploadSpeed = some u ∧ r.latency = some l ∧ r.bufferBloat = some b) :
    runSpeedTest readings .completed = .rejected "No result" := by
  simp only [runSpeedTest]
  cases hl : readings.getLast? with
  | none => rfl
  | some r =>
    cases hd : r.downloadSpeed with
    | none => simp [hd]
    | some d =>
      cases hu : r.uploadSpeed with
      | none => simp [hd, hu]
      | some u =>
        cases hlat : r.latency with
        | none => simp [hd, hu, hlat]
        | some l =>
          cases hb : r.bufferBloat with
          | none => simp [hd, hu, hlat, hb]
          | some b => exact absurd ⟨r, d, u, l, b, hl, hd, hu, hlat, hb⟩ h

/-- **C3.** Measurement Reducer completeness: the reducer keeps only the most
recently observed reading (overwriting), and on stream completion it resolves
exactly when that last reading exists with all four required fields non-null;
otherwise it rejects with the "No result" error; a stream error is propagated
as a rejection; and whenever the reduction rejects, `runAndReport` publishes
nothing. -/
theorem measurement_reducer_completeness :
    (∀ readings : List FastResult,
      (∃ result, runSpeedTest readings .completed = .resolved result) ↔
        (∃ r d u l b, readings.getLast? = some r ∧ r.downloadSpeed = some d ∧
          r.uploadSpeed = some u ∧ r.latency = some l ∧ r.bufferBloat = some b)) ∧
    (∀ readings : List FastResult,
      (¬ ∃ r d u l b, readings.getLast? = some r ∧ r.downloadSpeed = some d ∧
        r.uploadSpeed = some u ∧ r.latency = some l ∧ r.bufferBloat = some b) →
      runSpeedTest readings .completed = .rejected "No result") ∧
    (∀ (readings : List FastResult) (message : String),
      runSpeedTest readings (.errored message) = .rejected message) ∧
    (∀ (identifier : String) (readings : List FastResult) (ending : StreamEnding)
      (message : String),
      runSpeedTest readings ending = .rejected message →
      runAndReport identifier readings ending = []) := by
  refine ⟨runSpeedTest_resolved_iff, runSpeedTest_rejected_of_incomplete, ?_, ?_⟩
  · intro readings message
    rfl
  · intro identifier readings ending message h
    unfold runAndReport
    rw [h]

/-- Witness for C3: the Scenario-3 reading (missing `latency`) makes the
reducer reject and `runAndReport` publish nothing. -/
theorem measurement_reducer_completeness_witness :
    runAndReport "device" [incompleteReading] .completed = [] :=
  measurement_reducer_completeness.2.2.2 "device" [incompleteReading] .completed "No result"
    (measurement_reducer_completeness.2.1 [incompleteReading]
      (by
        rintro ⟨r, d, u, l, b, hl, hd, hu, hlat, hb⟩
        simp only [List.getLast?_singleton, Option.some.injEq] at hl
        subst hl
        simp [incompleteReading, blankReading] at hlat))

/-- **C4.** Buffer-bloat normalization: for a terminal reading with all four
required fields, the resolved result passes `downloadSpeed`, `uploadSpeed`
and `latency` through unchanged and sets
`bufferBloat = max (rawBufferBloat - latency) 0`; every resolved result has
`bufferBloat ≥ 0`; and concretely (latency 20, raw 15) yields 0 while
(latency 20, raw 35) yields 15. -/
theorem buffer_bloat_normalization :
    (∀ (readings : List FastResult) (r : FastResult) (d u l b : Int),
      readings.getLast? = some r → r.downloadSpeed = some d → r.uploadSpeed = some u →
      r.latency = some l → r.bufferBloat = some b →
      runSpeedTest readings .completed = .resolved ⟨d, u, l, max (b - l) 0⟩) ∧
    (∀ (readings : List FastResult) (result : SpeedTestResult),
      runSpeedTest readings .completed = .resolved result → 0 ≤ result.bufferBloat) ∧
    runSpeedTest [clampedReading] .completed = .resolved ⟨100, 10, 20, 0⟩ ∧
    runSpeedTest [excessReading] .completed = .resolved ⟨100, 10, 20, 15⟩ := by
  refine ⟨runSpeedTest_resolved_eq, ?_, by decide, by decide⟩
  intro readings result h
  obtain ⟨r, d, u, l, b, hl, hd, hu, hlat, hb⟩ :=
    (runSpeedTest_resolved_iff readings).mp ⟨result, h⟩
  rw [runSpeedTest_resolved_eq readings r d u l b hl hd hu hlat hb] at h
  injection h with h2
  rw [← h2]
  exact le_max_right (b - l) 0

/-- Witness for C4: the normalization equation instantiated at the clamped
concrete reading. -/
theorem buffer_bloat_normalization_witness :
    runSpeedTest [clampedReading] .completed =
      .resolved ⟨100, 10, 20, max (15 - 20 : Int) 0⟩ :=
  buffer_bloat_normalization.1 [clampedReading] clampedReading 100 10 20 15
    (by decide) (by decide) (by decide) (by decide) (by decide)

/-- **C5.** Threshold law: `publishSpeedTestResult` publishes exactly one
message iff `downloadSpeed ≥ 5`; below the threshold it publishes nothing,
logs the skip line and returns normally; at or above the threshold it
publishes the JSON state payload (all four measured values) to the single
shared state topic. -/
theorem threshold_law :
    (∀ (identifier : String) (result : SpeedTestResult),
      ((publishSpeedTestResult identifier result).1.length = 1 ↔
        5 ≤ result.downloadSpeed)) ∧
    (∀ (identifier : String) (result : SpeedTestResult), result.downloadSpeed < 5 →
      publishSpeedTestResult identifier result =
        ([], ["[st2mqtt] Download speed is less than 5 Mbps, skipping publishing"])) ∧
    (∀ (identifier : String) (result : SpeedTestResult), 5 ≤ result.downloadSpeed →
      (publishSpeedTestResult identifier result).1 =
        [(getStateTopic identifier, statePayload result)]) := by
  refine ⟨?_, ?_, ?_⟩
  · intro identifier result
    unfold publishSpeedTestResult
    by_cases h : result.downloadSpeed < 5
    · simp [h]
    · simp [h]
      omega
  · intro identifier result h
    unfold publishSpeedTestResult
    rw [if_pos h]
  · intro identifier result h
    unfold publishSpeedTestResult
    rw [if_neg (by omega)]

/-- Witness for C5: Scenario 5 — a result with `downloadSpeed = 3` produces
zero messages and the skip log line. -/
theorem threshold_law_witness :
    publishSpeedTestResult "device" ⟨3, 1, 1, 1⟩ =
      ([], ["[st2mqtt] Download speed is less than 5 Mbps, skipping publishing"]) :=
  threshold_law.2.1 "device" ⟨3, 1, 1, 1⟩ (by decide)

theorem discoveryTopic_ne_stateTopic (identifier : String) (sensorType : SensorType) :
    discoveryTopic identifier sensorType ≠ getStateTopic identifier := by
  intro h
  have hlen := congrArg String.length h
  simp only [discoveryTopic, getStateTopic, getDeviceIdentifier, String.length_append] at hlen
  cases sensorType <;> simp only [sensorTypeKey] at hlen <;>
    simp only [show ("homeassistant/sensor/" : String).length = 21 from rfl,
      show ("st_" : String).length = 3 from rfl,
      show ("/" : String).length = 1 from rfl,
      show ("/config" : String).length = 7 from rfl,
      show ("/state" : String).length = 6 from rfl,
      show ("download_speed" : String).length = 14 from rfl,
      show ("upload_speed" : String).length = 12 from rfl,
      show ("latency" : String).length = 7 from rfl,
      show ("buffer_bloat" : String).length = 12 from rfl] at hlen <;>
    omega

/-- **C7.** Registry reset handling: a message on `homeassistant/status`
publishes exactly the four discovery configuration messages (one per sensor
variant, in source order) and no message on the state topic; a message on any
other topic publishes nothing and only logs the unknown-topic warning. -/
theorem registry_reset_handling :
    (∀ identifier : String,
      (messageHandler identifier "homeassistant/status").1 = publishDiscoveryMessages identifier ∧
      (messageHandler identifier "homeassistant/status").1.length = 4) ∧
    (∀ (identifier : String) (p : String × String),
      p ∈ (messageHandler identifier "homeassistant/status").1 →
      p.1 ≠ getStateTopic identifier) ∧
    (∀ (identifier topic : String), topic ≠ "homeassistant/status" →
      messageHandler identifier topic =
        ([], ["Received message on unknown topic: " ++ topic])) := by
  refine ⟨?_, ?_, ?_⟩
  · intro identifier
    exact ⟨rfl, rfl⟩
  · intro identifier p hp
    have hp2 : p ∈ publishDiscoveryMessages identifier := hp
    simp only [publishDiscoveryMessages, List.mem_cons, List.not_mem_nil, or_false] at hp2
    rcases hp2 with h | h | h | h <;> rw [h] <;>
      exact discoveryTopic_ne_stateTopic identifier _
  · intro identifier topic h
    simp [messageHandler, h]

/-- Witness for C7: a message on an unknown topic publishes nothing and only
logs the warning. -/
theorem registry_reset_handling_witness :
    messageHandler "device" "homeassistant/online" =
      ([], ["Received message on unknown topic: homeassistant/online"]) :=
  registry_reset_handling.2.2 "device" "homeassistant/online" (by decide)

/-- **C9.** Discovery determinism/idempotence: `publishDiscoverMessage` is a
pure function of the configured identifier and sensor variant, so two calls
with the same arguments produce the identical `(topic, payload)` pair; the
payload is exactly the serialized discovery configuration, and the topic is
`homeassistant/sensor/<device>/<sensor_variant>/config` where the device
identifier is derived by the fixed `st_` rule. -/
theorem discovery_determinism :
    (∀ (identifier : String) (sensorType : SensorType),
      publishDiscoverMessage identifier sensorType = publishDiscoverMessage identifier sensorType) ∧
    (∀ (identifier : String) (sensorType : SensorType),
      (publishDiscoverMessage identifier sensorType).2 = discoveryPayload identifier sensorType) ∧
    (∀ (identifier : String) (sensorType : SensorType),
      (publishDiscoverMessage identifier sensorType).1 =
        "homeassistant/sensor/" ++ getDeviceIdentifier identifier ++ "/" ++
          sensorTypeKey sensorType ++ "/config") ∧
    (∀ identifier : String, getDeviceIdentifier identifier = "st_" ++ identifier) :=
  ⟨fun _ _ => rfl, fun _ _ => rfl, fun _ _ => rfl, fun _ => rfl⟩

/-- **C10.** Implicit fall-through: the `case "homeassistant/status"` block of
the incoming-message `switch` has no `break`, so the `default` branch also
runs for reset notifications — the unknown-topic warning is logged for every
incoming message, and on `homeassistant/status` the handler produces the
received-status log line, the discovery burst, and then the same warning. -/
theorem status_case_fall_through :
    (∀ identifier topic : String,
      "Received message on unknown topic: " ++ topic ∈ (messageHandler identifier topic).2) ∧
    (∀ identifier : String,
      (messageHandler identifier "homeassistant/status").2 =
        ["[st2mqtt] Received \"homeassistant/status\" message",
          "Received message on unknown topic: homeassistant/status"]) := by
  constructor
  · intro identifier topic
    by_cases h : topic = "homeassistant/status"
    · subst h
      simp [messageHandler]
    · simp [messageHandler, h]
  · intro identifier
    rfl

/-- Outcome of one subscription of the observable returned by `runFastTest`
(`src/fast.ts`): the observer completed, the observer received an error, or
the loop was still polling when the supplied ticks ran out. -/
inductive SessionOutcome where
  | completed
  | errored
  | running
deriving DecidableEq, Repr

/-- Embeds the `init` loop of `src/fast.ts` for the teardown claim, tracking
how many times `browser.close()` runs.  Each list element is one
`page.evaluate` call: `some r` is a successful extraction, `none` an
extraction failure whose rejection propagates out of `init` into the
`.catch` of `runFastTest`, which only calls `observer.error`.  The only
`browser.close()` call in `src/fast.ts` is the one executed right before
`observer.complete()` when a termination condition holds. -/
def initCloseCount (options : FastOptions) :
    List (Option FastResult) → Nat × SessionOutcome
  | [] => (0, .running)
  | none :: _ => (0, .errored)
  | some r :: rest =>
    if shouldTerminate options r then (1, .completed)
    else initCloseCount options rest

/-- Embeds the subscriber function of `runFastTest` (`src/fast.ts`) for the
teardown claim: `launchOk`, `newPageOk` and `gotoOk` tell whether
`puppeteer.launch`, `browser.newPage` and `page.goto` succeed.  A failure of
any of them skips `init` and lands in `.catch(observer.error.bind(observer))`,
which does not close the browser.  Returns how many times `browser.close()`
ran, and how the subscription ended. -/
def runFastTestSession (options : FastOptions) (launchOk newPageOk gotoOk : Bool)
    (ticks : List (Option FastResult)) : Nat × SessionOutcome :=
  if launchOk && newPageOk && gotoOk then initCloseCount options ticks
  else (0, .errored)

theorem initCloseCount_spec (options : FastOptions) :
    ∀ ticks : List (Option FastResult),
      ((initCloseCount options ticks).2 = SessionOutcome.completed →
        (initCloseCount options ticks).1 = 1) ∧
      ((initCloseCount options ticks).2 = SessionOutcome.errored →
        (initCloseCount options ticks).1 = 0)
  | [] => by simp [initCloseCount]
  | none :: rest => by simp [initCloseCount]
  | some r :: rest => by
    by_cases h : shouldTerminate options r = true
    · simp [initCloseCount, h]
    · have hstep : initCloseCount options (some r :: rest) = initCloseCount options rest := by
        simp [initCloseCount, h]
      rw [hstep]
      exact initCloseCount_spec options rest

/-- Counterexample to C6 as stated: when `page.goto` fails, the subscription
ends with `observer.error` and `browser.close()` has run zero times, not
once — the browser session is leaked on the failure path. -/
theorem session_teardown_counterexample :
    (runFastTestSession ⟨some true⟩ true true false []).2 = SessionOutcome.errored ∧
      (runFastTestSession ⟨some true⟩ true true false []).1 = 0 := by
  decide

/-- **C6 (amended).** Session teardown: the browser session is closed exactly
once on normal completion of the sampling loop; on any failure during
automation launch, page creation, navigation or in-page extraction the error
is surfaced through `observer.error` but the session is closed zero times
(it is leaked, not released). -/
theorem session_teardown_amended :
    (∀ (options : FastOptions) (launchOk newPageOk gotoOk : Bool)
      (ticks : List (Option FastResult)),
      (runFastTestSession options launchOk newPageOk gotoOk ticks).2 = SessionOutcome.completed →
      (runFastTestSession options launchOk newPageOk gotoOk ticks).1 = 1) ∧
    (∀ (options : FastOptions) (launchOk newPageOk gotoOk : Bool)
      (ticks : List (Option FastResult)),
      (runFastTestSession options launchOk newPageOk gotoOk ticks).2 = SessionOutcome.errored →
      (runFastTestSession options launchOk newPageOk gotoOk ticks).1 = 0) := by
  constructor
  · intro options launchOk newPageOk gotoOk ticks h
    unfold runFastTestSession at h ⊢
    by_cases hok : (launchOk && newPageOk && gotoOk) = true
    · rw [if_pos hok] at h ⊢
      exact (initCloseCount_spec options ticks).1 h
    · rw [if_neg hok] at h
      simp at h
  · intro options launchOk newPageOk gotoOk ticks h
    unfold runFastTestSession at h ⊢
    by_cases hok : (launchOk && newPageOk && gotoOk) = true
    · rw [if_pos hok] at h ⊢
      exact (initCloseCount_spec options ticks).2 h
    · rw [if_neg hok]

/-- Witness for C6 (amended): a run whose first extraction already satisfies
a termination condition closes the browser exactly once. -/
theorem session_teardown_witness :
    (runFastTestSession ⟨some true⟩ true true true [some scenarioTick4]).1 = 1 :=
  session_teardown_amended.1 ⟨some true⟩ true true true [some scenarioTick4] (by decide)

/-- The three termination signals handled by `registerExitHandlers`
(`src/server.ts`). -/
inductive Signal where
  | sighup
  | sigint
  | sigterm
deriving DecidableEq, Repr

/-- The exit codes installed by `registerExitHandlers` (`src/server.ts`):
`process.exit(128 + 1)` for SIGHUP, `process.exit(128 + 2)` for SIGINT and
`process.exit(128 + 15)` for SIGTERM. -/
def exitCodeForSignal : Signal → Nat
  | .sighup => 128 + 1
  | .sigint => 128 + 2
  | .sigterm => 128 + 15

/-- A process-level event delivered to the handlers registered by
`registerExitHandlers`. -/
inductive ProcEvent where
  | beforeExit
  | signal (s : Signal)
deriving DecidableEq, Repr

/-- The observable shutdown state: whether `cronJob.stop()` and
`mqttClient.end()` have run, and the exit code once the process exited. -/
structure ProcessState where
  cronStopped : Bool
  mqttEnded : Bool
  exitCode : Option Nat
deriving DecidableEq, Repr

/-- The state before any shutdown-related event. -/
def initialProcessState : ProcessState :=
  { cronStopped := false, mqttEnded := false, exitCode := none }

/-- Dispatches process events to the handlers registered by
`registerExitHandlers` (`src/server.ts`).  The `"beforeExit"` handler runs
`cronJob.stop()` and `mqttClient.end()`; each signal handler only calls
`process.exit(128 + n)`.  Per the documented Node/Bun process semantics that
the runtime supplies, an explicit `process.exit()` terminates the process
immediately: no further events are dispatched after it, and in particular
`"beforeExit"` is never emitted following an explicit exit. -/
def runProcessEvents : ProcessState → List ProcEvent → ProcessState
  | st, [] => st
  | st, e :: rest =>
    match st.exitCode with
    | some _ => st
    | none =>
      match e with
      | .beforeExit => runProcessEvents { st with cronStopped := true, mqttEnded := true } rest
      | .signal s => runProcessEvents { st with exitCode := some (exitCodeForSignal s) } rest

theorem runProcessEvents_exited (c : Nat) :
    ∀ (events : List ProcEvent) (a b : Bool),
      runProcessEvents ⟨a, b, some c⟩ events = ⟨a, b, some c⟩
  | [], _, _ => rfl
  | _ :: _, _, _ => rfl

/-- Counterexample to C8 as stated: a single SIGTERM makes the process exit
with code 143 while neither the cron job has been stopped nor the mqtt
connection ended — the signal-triggered shutdown performs no cleanup. -/
theorem shutdown_counterexample :
    (runProcessEvents initialProcessState [ProcEvent.signal Signal.sigterm]).exitCode = some 143 ∧
      (runProcessEvents initialProcessState [ProcEvent.signal Signal.sigterm]).cronStopped =
        false ∧
      (runProcessEvents initialProcessState [ProcEvent.signal Signal.sigterm]).mqttEnded =
        false := by
  decide

/-- **C8 (amended).** Shutdown semantics: on receipt of a termination signal
the process exits immediately with the distinct code 128 plus the signal's
conventional number (129 for SIGHUP, 130 for SIGINT, 143 for SIGTERM); the
exit happens at most once even if further events (including more signals)
arrive, and no cleanup runs on that path; the cleanup that stops the cron
trigger and ends the mqtt connection is attached to the `beforeExit` event,
which only runs on a natural (non-signal) exit. -/
theorem shutdown_amended :
    (exitCodeForSignal .sighup = 129 ∧ exitCodeForSignal .sigint = 130 ∧
      exitCodeForSignal .sigterm = 143) ∧
    (∀ (s : Signal) (rest : List ProcEvent),
      runProcessEvents initialProcessState (ProcEvent.signal s :: rest) =
        { cronStopped := false, mqttEnded := false, exitCode := some (exitCodeForSignal s) }) ∧
    runProcessEvents initialProcessState [ProcEvent.beforeExit] =
      { cronStopped := true, mqttEnded := true, exitCode := none } := by
  refine ⟨⟨rfl, rfl, rfl⟩, ?_, rfl⟩
  intro s rest
  have hstep : runProcessEvents initialProcessState (ProcEvent.signal s :: rest) =
      runProcessEvents ⟨false, false, some (exitCodeForSignal s)⟩ rest := by
    simp [initialProcessState, runProcessEvents]
  rw [hstep, runProcessEvents_exited (exitCodeForSignal s) rest false false]

end St2Mqtt
